import Mathlib

/-!
Shallow embedding of the GlobalChatBot orchestration code
(backend/conversation_utils.py, backend/chat_handlers.py,
backend/api_functions.py, backend/tool_utils.py,
server/endpoints.py, server/websocket_handlers.py)
together with proofs of the specification claims about it.

Python strings are modelled as Lean String, Python lists as Lean List,
Python dicts that carry a fixed shape as Lean structures.  Fallible code
is modelled with Except; an exception caught by a handler is modelled by
the branch the handler takes.
-/

namespace GlobalChatBot

/-! ## Python string primitives used by the code -/

/-- Python str.strip() whitespace set: space, tab, newline, carriage
return, vertical tab, form feed. -/
def pyWhitespaceChar (c : Char) : Bool :=
  c = ' ' || c = '\t' || c = '\n' || c = '\r' || c = '\x0b' || c = '\x0c'

/-- Python str.strip(): drop leading and trailing whitespace. -/
def pyStripList (l : List Char) : List Char :=
  ((l.dropWhile pyWhitespaceChar).reverse.dropWhile pyWhitespaceChar).reverse

/-- Python str.strip() on a String. -/
def pyStrip (s : String) : String :=
  String.mk (pyStripList s.data)

/-- Python truthiness of s.strip(): true iff some character is not
whitespace. -/
def pyStripTruthy (s : String) : Bool :=
  pyStrip s ≠ ""

/-- Python str.lower() on one character (ASCII, which is all the code
feeds it). -/
def pyLowerChar (c : Char) : Char :=
  if 'A' ≤ c && c ≤ 'Z' then Char.ofNat (c.toNat + 32) else c

/-- Python str.lower() as a character list. -/
def pyLower (s : String) : List Char :=
  s.data.map pyLowerChar

/-- Python substring test needle in hay over character lists. -/
def listIn : List Char → List Char → Bool
  | ns, [] => ns.isEmpty
  | ns, c :: rest => ns.isPrefixOf (c :: rest) || listIn ns rest

/-- Python needle in hay.lower() for an (already lowercase) literal
needle, as written for the non-financial keyword lists. -/
def pyInLower (needle hay : String) : Bool :=
  listIn needle.data (pyLower hay)

/-- Python needle.lower() in hay.lower(), as written for the financial
keyword list. -/
def pyInLowerBoth (needle hay : String) : Bool :=
  listIn (pyLower needle) (pyLower hay)

/-! ## conversation_utils.build_conversation_messages -/

/-- One OpenAI-bound chat message, a dict with role and content. -/
structure ChatMsg where
  role : String
  content : String
deriving DecidableEq, Repr

/-- The list built before the length check in build_conversation_messages:
system prompt, then history minus exact-content duplicates of the query,
then the current user query. -/
def untrimmedMessages (query : String) (history : List ChatMsg)
    (system_prompt : String) : List ChatMsg :=
  ⟨"system", system_prompt⟩ ::
    (history.filter (fun m => m.content ≠ query) ++ [⟨"user", query⟩])

/-- backend/conversation_utils.py build_conversation_messages.
messages[0] is the system entry by construction; messages[-20:] is
drop (length - 20). -/
def build_conversation_messages (query : String) (history : List ChatMsg)
    (system_prompt : String) : List ChatMsg :=
  let messages := untrimmedMessages query history system_prompt
  if 21 < messages.length then
    ⟨"system", system_prompt⟩ :: messages.drop (messages.length - 20)
  else
    messages

theorem untrimmedMessages_length (query : String) (history : List ChatMsg)
    (system_prompt : String) :
    (untrimmedMessages query history system_prompt).length =
      (history.filter (fun m => m.content ≠ query)).length + 2 := by
  simp [untrimmedMessages]

/-- C1: the LLM-bound message list has at most 21 entries; when the
untrimmed list (system prompt + de-duplicated history + current query)
exceeds 21 entries, the result is the system entry followed by the last
20 entries of the untrimmed list, a contiguous suffix in original
order. -/
theorem build_conversation_messages_window (query : String)
    (history : List ChatMsg) (system_prompt : String) :
    (build_conversation_messages query history system_prompt).length ≤ 21 ∧
    (21 < (untrimmedMessages query history system_prompt).length →
      build_conversation_messages query history system_prompt =
        ⟨"system", system_prompt⟩ ::
          (untrimmedMessages query history system_prompt).drop
            ((untrimmedMessages query history system_prompt).length - 20) ∧
      ((untrimmedMessages query history system_prompt).drop
          ((untrimmedMessages query history system_prompt).length - 20)).length
        = 20 ∧
      (untrimmedMessages query history system_prompt).drop
          ((untrimmedMessages query history system_prompt).length - 20) <:+
        untrimmedMessages query history system_prompt) := by
  constructor
  · unfold build_conversation_messages
    by_cases h : 21 < (untrimmedMessages query history system_prompt).length
    · simp only [h, if_true]
      simp only [List.length_cons, List.length_drop]
      omega
    · simp only [h, if_false]
      omega
  · intro h
    refine ⟨?_, ?_, ?_⟩
    · unfold build_conversation_messages
      simp only [h, if_true]
    · simp only [List.length_drop]
      omega
    · exact List.drop_suffix _ _

/-- Witness for C1 at a history of 25 entries: the untrimmed list has 27
entries, so the trim branch applies. -/
theorem build_conversation_messages_window_witness :
    21 < (untrimmedMessages "q" (List.replicate 25 ⟨"user", "x"⟩) "s").length ∧
    (build_conversation_messages "q" (List.replicate 25 ⟨"user", "x"⟩) "s" =
        ⟨"system", "s"⟩ ::
          (untrimmedMessages "q" (List.replicate 25 ⟨"user", "x"⟩) "s").drop
            ((untrimmedMessages "q" (List.replicate 25 ⟨"user", "x"⟩) "s").length - 20) ∧
      ((untrimmedMessages "q" (List.replicate 25 ⟨"user", "x"⟩) "s").drop
          ((untrimmedMessages "q" (List.replicate 25 ⟨"user", "x"⟩) "s").length - 20)).length
        = 20 ∧
      (untrimmedMessages "q" (List.replicate 25 ⟨"user", "x"⟩) "s").drop
          ((untrimmedMessages "q" (List.replicate 25 ⟨"user", "x"⟩) "s").length - 20) <:+
        untrimmedMessages "q" (List.replicate 25 ⟨"user", "x"⟩) "s") :=
  ⟨by decide,
   (build_conversation_messages_window "q" (List.replicate 25 ⟨"user", "x"⟩) "s").2
     (by decide)⟩

/-- C10: the built list always begins with the system-prompt entry and
ends with the current user query, trim case included. -/
theorem build_conversation_messages_ends (query : String)
    (history : List ChatMsg) (system_prompt : String) :
    (build_conversation_messages query history system_prompt).head? =
      some ⟨"system", system_prompt⟩ ∧
    (build_conversation_messages query history system_prompt).getLast? =
      some ⟨"user", query⟩ := by
  unfold build_conversation_messages untrimmedMessages
  by_cases h : 21 <
      (untrimmedMessages query history system_prompt).length
  · simp only [untrimmedMessages] at h
    simp only [h, if_true]
    refine ⟨rfl, ?_⟩
    set F := history.filter (fun m => m.content ≠ query) with hF
    have hsplit : (ChatMsg.mk "system" system_prompt ::
        (F ++ [⟨"user", query⟩])) =
        (⟨"system", system_prompt⟩ :: F) ++ [⟨"user", query⟩] := by
      simp
    rw [hsplit]
    have hk : ((ChatMsg.mk "system" system_prompt :: F) ++
        [ChatMsg.mk "user" query]).length - 20 ≤
        (ChatMsg.mk "system" system_prompt :: F).length := by
      simp only [List.length_append, List.length_cons, List.length_nil]
      omega
    rw [List.drop_append_of_le_length hk, ← List.cons_append,
      List.getLast?_concat]
  · simp only [untrimmedMessages] at h
    simp only [h, if_false]
    refine ⟨rfl, ?_⟩
    rw [← List.cons_append, List.getLast?_concat]

/-! ## api_functions.web_search: freshness classification -/

/-- backend/api_functions.py financial_keywords. -/
def financial_keywords : List String :=
  ["nifty", "sensex", "stock", "price", "index", "bse", "nse", "market"]

/-- any(keyword.lower() in query.lower() for keyword in financial_keywords). -/
def is_financial_query (query : String) : Bool :=
  financial_keywords.any (fun k => pyInLowerBoth k query)

/-- any(word in query.lower() for word in ws), for the lowercase literal
keyword lists. -/
def anyKwInQuery (ws : List String) (query : String) : Bool :=
  ws.any (fun w => pyInLower w query)

/-- The tbs date-filter parameter chosen by web_search:
now/today/current or financial gives past day qdr:d, else
latest/recent/news/update gives past week qdr:w, else past month qdr:m. -/
def webSearchDateFilter (query : String) : String :=
  if anyKwInQuery ["now", "today", "current"] query || is_financial_query query then
    "qdr:d"
  else if anyKwInQuery ["latest", "recent", "news", "update"] query then
    "qdr:w"
  else
    "qdr:m"

/-- The enhanced_query string built by web_search from the query and the
current year / month-year strings: the default is overwritten by the
financial, then news, then now/current/today branch. -/
def enhanced_query (query current_year current_month_year : String) : String :=
  if is_financial_query query then
    query ++ " " ++ current_month_year ++ " live current today"
  else if anyKwInQuery ["news", "update", "latest", "breaking"] query then
    query ++ " " ++ current_year ++ " today latest news"
  else if anyKwInQuery ["now", "current", "today"] query then
    query ++ " " ++ current_year ++ " current today"
  else
    query ++ " " ++ current_year ++ " latest recent"

/-- C3: date-filter priority — a query containing now/today/current or a
financial keyword gets the past-day filter; otherwise
latest/recent/news/update gets past week; otherwise past month; and the
three concrete example queries select past day, past week and past month
respectively. -/
theorem webSearchDateFilter_priority (query : String) :
    ((anyKwInQuery ["now", "today", "current"] query ||
        is_financial_query query) = true →
      webSearchDateFilter query = "qdr:d") ∧
    ((anyKwInQuery ["now", "today", "current"] query ||
        is_financial_query query) = false →
      anyKwInQuery ["latest", "recent", "news", "update"] query = true →
      webSearchDateFilter query = "qdr:w") ∧
    ((anyKwInQuery ["now", "today", "current"] query ||
        is_financial_query query) = false →
      anyKwInQuery ["latest", "recent", "news", "update"] query = false →
      webSearchDateFilter query = "qdr:m") ∧
    webSearchDateFilter "nifty now" = "qdr:d" ∧
    webSearchDateFilter "startup funding news" = "qdr:w" ∧
    webSearchDateFilter "history of Rome" = "qdr:m" := by
  refine ⟨?_, ?_, ?_, by decide, by decide, by decide⟩
  · intro h
    simp [webSearchDateFilter, h]
  · intro h hw
    simp [webSearchDateFilter, h, hw]
  · intro h hw
    simp [webSearchDateFilter, h, hw]

/-- Witness for C3 at the query nifty now, which satisfies the past-day
condition. -/
theorem webSearchDateFilter_priority_witness :
    (anyKwInQuery ["now", "today", "current"] "nifty now" ||
        is_financial_query "nifty now") = true ∧
    webSearchDateFilter "nifty now" = "qdr:d" :=
  ⟨by decide, (webSearchDateFilter_priority "nifty now").1 (by decide)⟩

/-- C9: query-text augmentation priority — financial first, then
news/update/latest/breaking, then now/current/today; and on the query
latest news now the two chains pick different branches: the date filter
takes its first branch (past day, because of now) while the augmentation
takes its news branch, showing the chains are distinct. -/
theorem enhanced_query_priority (query current_year current_month_year : String) :
    (is_financial_query query = true →
      enhanced_query query current_year current_month_year =
        query ++ " " ++ current_month_year ++ " live current today") ∧
    (is_financial_query query = false →
      anyKwInQuery ["news", "update", "latest", "breaking"] query = true →
      enhanced_query query current_year current_month_year =
        query ++ " " ++ current_year ++ " today latest news") ∧
    (is_financial_query query = false →
      anyKwInQuery ["news", "update", "latest", "breaking"] query = false →
      anyKwInQuery ["now", "current", "today"] query = true →
      enhanced_query query current_year current_month_year =
        query ++ " " ++ current_year ++ " current today") ∧
    (webSearchDateFilter "latest news now" = "qdr:d" ∧
      enhanced_query "latest news now" current_year current_month_year =
        "latest news now" ++ " " ++ current_year ++ " today latest news") := by
  refine ⟨?_, ?_, ?_, by decide, ?_⟩
  · intro h
    simp [enhanced_query, h]
  · intro h hn
    simp [enhanced_query, h, hn]
  · intro h hn hc
    simp [enhanced_query, h, hn, hc]
  · have hf : is_financial_query "latest news now" = false := by decide
    have hn : anyKwInQuery ["news", "update", "latest", "breaking"]
        "latest news now" = true := by decide
    simp [enhanced_query, hf, hn]

/-- Witness for C9 at the financial query nifty price now. -/
theorem enhanced_query_priority_witness :
    is_financial_query "nifty price now" = true ∧
    enhanced_query "nifty price now" "2025" "September 2025" =
      "nifty price now" ++ " " ++ "September 2025" ++ " live current today" :=
  ⟨by decide,
   (enhanced_query_priority "nifty price now" "2025" "September 2025").1
     (by decide)⟩

/-! ## chat_handlers streamed synthesis: the chunk buffer -/

/-- content.endswith((chr(46), chr(33), chr(63), newline)): every needle
is a single character, so this is a test on the last character. -/
def endsTerminal (s : String) : Bool :=
  match s.data.getLast? with
  | some c => c = '.' || c = '!' || c = '?' || c = '\n'
  | none => false

/-- The streamed-synthesis loop of chat_handlers.py over the list of
token deltas: a falsy (empty) delta is skipped; otherwise the delta is
appended to the buffer, and the buffer is yielded when its length has
reached minSize or the delta ends in sentence-terminal punctuation or a
newline.  Returns the yielded chunks and the leftover buffer. -/
def streamFlush (minSize : Nat) : List String → String → List String × String
  | [], buf => ([], buf)
  | d :: ds, buf =>
    if d = "" then streamFlush minSize ds buf
    else
      let buf' := buf ++ d
      if minSize ≤ buf'.length || endsTerminal d then
        let rest := streamFlush minSize ds ""
        (buf' :: rest.1, rest.2)
      else
        streamFlush minSize ds buf'

/-- After the stream ends, a non-empty leftover buffer is yielded too. -/
def flushedChunks (minSize : Nat) (deltas : List String) : List String :=
  if (streamFlush minSize deltas "").2 = "" then
    (streamFlush minSize deltas "").1
  else
    (streamFlush minSize deltas "").1 ++ [(streamFlush minSize deltas "").2]

/-- Concatenation of a list of strings, in order. -/
def concatAll : List String → String
  | [] => ""
  | s :: rest => s ++ concatAll rest

theorem concatAll_concat (l : List String) (s : String) :
    concatAll (l ++ [s]) = concatAll l ++ s := by
  induction l with
  | nil => simp [concatAll]
  | cons x xs ih => simp [concatAll, ih, String.append_assoc]

theorem streamFlush_invariant (minSize : Nat) (deltas : List String) :
    ∀ buf : String,
      concatAll (streamFlush minSize deltas buf).1 ++
        (streamFlush minSize deltas buf).2 =
      buf ++ concatAll deltas := by
  induction deltas with
  | nil => intro buf; simp [streamFlush, concatAll]
  | cons d ds ih =>
    intro buf
    by_cases hd : d = ""
    · simp only [streamFlush]
      rw [if_pos hd, ih buf]
      simp [concatAll, hd]
    · by_cases hc : (minSize ≤ (buf ++ d).length || endsTerminal d) = true
      · simp only [streamFlush]
        rw [if_neg hd, if_pos hc]
        simp only [concatAll]
        rw [String.append_assoc, ih ""]
        simp [String.append_assoc]
      · simp only [streamFlush]
        rw [if_neg hd, if_neg hc, ih (buf ++ d)]
        simp [concatAll, String.append_assoc]

theorem endsTerminal_append (buf d : String) (hd : d ≠ "") :
    endsTerminal (buf ++ d) = endsTerminal d := by
  have hnil : d.data ≠ [] := by
    intro h
    apply hd
    cases d with
    | mk l => cases h; rfl
  unfold endsTerminal
  rw [String.data_append, List.getLast?_append_of_ne_nil _ hnil]

/-- C6: the dual-threshold flush rule.  The buffer accumulates each
non-empty token delta and is released exactly when its length reaches
the minimum size or its last character (equivalently, the last character
of the delta just appended) is sentence-terminal punctuation or a
newline; any non-empty remainder is flushed once the stream ends, so the
concatenation of all flushed chunks equals the full synthesized text. -/
theorem flushedChunks_complete (minSize : Nat) (deltas : List String) :
    concatAll (flushedChunks minSize deltas) = concatAll deltas ∧
    (∀ buf d : String, d ≠ "" →
      endsTerminal (buf ++ d) = endsTerminal d) := by
  constructor
  · unfold flushedChunks
    have h := streamFlush_invariant minSize deltas ""
    by_cases hrest : (streamFlush minSize deltas "").2 = ""
    · rw [if_pos hrest]
      rw [hrest, String.append_empty, String.empty_append] at h
      exact h
    · rw [if_neg hrest, concatAll_concat, h, String.empty_append]
  · exact fun buf d hd => endsTerminal_append buf d hd

/-- Witness for C6: concrete deltas, and a concrete non-empty delta for
the last-character equivalence. -/
theorem flushedChunks_complete_witness :
    concatAll (flushedChunks 5 ["Hi.", "there, ", "ok"]) =
      concatAll ["Hi.", "there, ", "ok"] ∧
    (("y." : String) ≠ "" ∧ endsTerminal ("x" ++ "y.") = endsTerminal "y.") :=
  ⟨(flushedChunks_complete 5 ["Hi.", "there, ", "ok"]).1,
   by decide,
   (flushedChunks_complete 5 ["Hi.", "there, ", "ok"]).2 "x" "y." (by decide)⟩

/-! ## tool_utils.format_function_result and the persisted responses -/

/-- The Python values a tool call can produce, as consumed by
format_function_result: an error dict, a list of result dicts (items
abstracted to strings), a plain string, or a non-error dict. -/
inductive PyVal
  | errDict (msg : String)
  | listVal (items : List String)
  | strVal (s : String)
  | dictVal
deriving DecidableEq, Repr

/-- backend/tool_utils.py format_function_result: error dicts become an
inline error marker, falsy results (empty string or empty list) become a
no-results marker, everything else is left blank for the model to
format. -/
def format_function_result (fn_name : String) (result : PyVal) : String :=
  match result with
  | .errDict e => "❌ **Error:** " ++ e ++ "\n\n"
  | .listVal [] => "❌ **No results from " ++ fn_name ++ ".**\n\n"
  | .listVal (_ :: _) => ""
  | .strVal s =>
    if s = "" then "❌ **No results from " ++ fn_name ++ ".**\n\n" else ""
  | .dictVal => ""

/-- Python sep.join(l). -/
def pyJoin (sep : String) : List String → String
  | [] => ""
  | [s] => s
  | s :: rest => s ++ sep ++ pyJoin sep rest

/-- Outcome of the first (tool-decision) LLM call: either a direct
answer or tool calls carrying the formatted string of each executed
tool, in execution order. -/
inductive ToolDecision
  | direct (content : String)
  | withTools (formatted : List String)
deriving DecidableEq, Repr

/-- chat_handlers.handle_chat_request: the final_response it persists.
In the tool branch, _process_tool_calls keeps only formatted results
that are non-blank after strip; when any survive they are joined with a
single newline, then the separator and the synthesis output follow,
otherwise two newlines and the synthesis output.  In the direct branch,
a falsy content falls back to a fixed apology. -/
def final_response_nonstreaming : ToolDecision → String → String
  | .direct content, _ =>
    if content = "" then "I couldn't process your request." else content
  | .withTools formatted, ai_response =>
    let toShow := formatted.filter pyStripTruthy
    if toShow ≠ [] then pyJoin "\n" toShow ++ "\n\n\n" ++ ai_response
    else "\n\n" ++ ai_response

/-- handle_chat_request stores the assembled response unconditionally
(there is no emptiness check before _save_conversation and
_store_assistant_message). -/
def handle_chat_request_persisted (d : ToolDecision) (synthesis : String) :
    Option String :=
  some (final_response_nonstreaming d synthesis)

/-- chat_handlers.stream_chat_response: the full_response it assembles.
In the tool branch every tool call first yields a two-newline progress
marker, then its formatted result when that is non-blank; the summary
header and the streamed synthesis text follow.  In the no-tool branch
full_response is exactly the streamed synthesis text. -/
def stream_full_response : ToolDecision → String → String
  | .direct _, synthesis => synthesis
  | .withTools formatted, synthesis =>
    concatAll (formatted.map fun f =>
      "\n\n" ++ (if pyStripTruthy f then f else "")) ++
      "\n\n\n" ++ synthesis

/-- stream_chat_response persists full_response to both stores only when
full_response.strip() is truthy; otherwise it logs a warning and stores
nothing. -/
def stream_chat_persisted (d : ToolDecision) (synthesis : String) :
    Option String :=
  if pyStrip (stream_full_response d synthesis) ≠ "" then
    some (stream_full_response d synthesis)
  else none

theorem length_pos_ne_empty {s : String} (h : 0 < s.length) : s ≠ "" := by
  intro e
  rw [e] at h
  exact absurd h (by decide)

/-- C2 counterexample: with one tool call whose formatted result is the
no-results marker and identical synthesis output, the streaming handler
persists a different byte sequence (it has the per-tool two-newline
progress marker prepended) than the non-streaming handler. -/
theorem persisted_bytes_differ_with_tools :
    handle_chat_request_persisted
        (.withTools [format_function_result "web_search" (.listVal [])]) "A" ≠
      stream_chat_persisted
        (.withTools [format_function_result "web_search" (.listVal [])]) "A" := by
  decide

/-- C2 amended: when the tool decision requests no tools and the same
non-blank synthesis output is produced, the two handlers persist
byte-identical assistant messages; the divergence is confined to the
tool branch. -/
theorem persisted_bytes_equal_no_tools (content : String)
    (h : pyStrip content ≠ "") :
    handle_chat_request_persisted (.direct content) content = some content ∧
    stream_chat_persisted (.direct content) content = some content := by
  have hc : content ≠ "" := by
    intro e
    subst e
    exact h (by decide)
  constructor
  · simp only [handle_chat_request_persisted, final_response_nonstreaming]
    rw [if_neg hc]
  · simp only [stream_chat_persisted, stream_full_response]
    rw [if_pos h]

/-- Witness for C2 amended at the one-letter response A. -/
theorem persisted_bytes_equal_no_tools_witness :
    pyStrip "A" ≠ "" ∧
    (handle_chat_request_persisted (.direct "A") "A" = some "A" ∧
      stream_chat_persisted (.direct "A") "A" = some "A") :=
  ⟨by decide, persisted_bytes_equal_no_tools "A" (by decide)⟩

/-- C4 counterexample: a turn with one tool call whose formatted result
is blank and an empty synthesis stream assembles the non-empty response
of five newlines, yet the streaming handler does not persist it. -/
theorem stream_nonempty_blank_not_persisted :
    stream_full_response
        (.withTools [format_function_result "web_search" (.listVal ["r"])]) ""
      ≠ "" ∧
    stream_chat_persisted
        (.withTools [format_function_result "web_search" (.listVal ["r"])]) ""
      = none := by
  decide

/-- C4 amended: the non-streaming handler persists its assembled
response unconditionally and that response is never the empty string;
the streaming handler persists exactly when the assembled response is
non-blank (non-empty after stripping whitespace), and what it persists
is the assembled response byte-intact. -/
theorem persistence_conditions (d : ToolDecision) (synthesis : String) :
    (handle_chat_request_persisted d synthesis =
        some (final_response_nonstreaming d synthesis) ∧
      final_response_nonstreaming d synthesis ≠ "") ∧
    ((stream_chat_persisted d synthesis).isSome = true ↔
      pyStrip (stream_full_response d synthesis) ≠ "") ∧
    (stream_chat_persisted d synthesis = none ∨
      stream_chat_persisted d synthesis =
        some (stream_full_response d synthesis)) := by
  refine ⟨⟨rfl, ?_⟩, ?_, ?_⟩
  · cases d with
    | direct content =>
      simp only [final_response_nonstreaming]
      by_cases hc : content = ""
      · rw [if_pos hc]
        decide
      · rw [if_neg hc]
        exact hc
    | withTools formatted =>
      simp only [final_response_nonstreaming]
      by_cases hs : formatted.filter pyStripTruthy ≠ []
      · rw [if_pos hs]
        apply length_pos_ne_empty
        simp only [String.length_append]
        have : ("\n\n\n" : String).length = 3 := by decide
        omega
      · rw [if_neg hs]
        apply length_pos_ne_empty
        simp only [String.length_append]
        have : ("\n\n" : String).length = 2 := by decide
        omega
  · unfold stream_chat_persisted
    by_cases h : pyStrip (stream_full_response d synthesis) ≠ ""
    · rw [if_pos h]
      simpa using h
    · rw [if_neg h]
      simpa using h
  · unfold stream_chat_persisted
    by_cases h : pyStrip (stream_full_response d synthesis) ≠ ""
    · rw [if_pos h]
      exact Or.inr rfl
    · rw [if_neg h]
      exact Or.inl rfl

/-! ## server/endpoints.py GET conversations -/

/-- One raw record in the Redis list: either malformed (json.loads
raises JSONDecodeError) or a well-formed message record. -/
inductive StoredRecord
  | malformed
  | record (role content : String)
deriving DecidableEq, Repr

/-- redis.lrange(key, -limit, -1): the last limit records. -/
def lrangeLast (l : List StoredRecord) (limit : Nat) : List StoredRecord :=
  l.drop (l.length - limit)

/-- The 200 body of GET conversations: session id, parsed messages,
count. -/
structure HistoryResponse where
  session_id : String
  messages : List (String × String)
  count : Nat
deriving DecidableEq, Repr

/-- The parse loop of get_conversation_history in server/endpoints.py.
A malformed record is skipped by the JSONDecodeError handler; on a
well-formed record the code calls parsed_messages.routerend(parsed_msg),
a method Python lists do not have, so an AttributeError escapes the
inner handler and reaches the outer one, which answers HTTP 500. -/
def endpointParseLoop :
    List StoredRecord → List (String × String) →
      Except Nat (List (String × String))
  | [], acc => .ok acc
  | .malformed :: rest, acc => endpointParseLoop rest acc
  | .record _ _ :: _, _ => .error 500

/-- server/endpoints.py get_conversation_history (the route handler):
read the last limit records, run the parse loop, answer 200 with the
parsed messages or 500. -/
def get_conversation_history_route (session_id : String)
    (stored : List StoredRecord) (limit : Nat) : Except Nat HistoryResponse :=
  match endpointParseLoop (lrangeLast stored limit) [] with
  | .error code => .error code
  | .ok msgs => .ok ⟨session_id, msgs, msgs.length⟩

theorem endpointParseLoop_error_of_record (l : List StoredRecord)
    (acc : List (String × String))
    (h : ∃ role content, StoredRecord.record role content ∈ l) :
    endpointParseLoop l acc = .error 500 := by
  induction l generalizing acc with
  | nil =>
    obtain ⟨r, c, hm⟩ := h
    exact absurd hm (List.not_mem_nil _)
  | cons x rest ih =>
    cases x with
    | malformed =>
      obtain ⟨r, c, hm⟩ := h
      rcases List.mem_cons.mp hm with h1 | h2
      · exact absurd h1 (by intro e; cases e)
      · exact ih acc ⟨r, c, h2⟩
    | record r c => rfl

/-- C5: the history endpoint at the failing input.  A session holding
one well-formed stored message makes GET conversations answer HTTP 500
instead of returning that message; only an empty (or all-malformed)
window returns 200. -/
theorem history_route_errors_on_stored_record :
    get_conversation_history_route "s1" [.record "user" "hi"] 50 =
      .error 500 ∧
    get_conversation_history_route "s1" [] 50 =
      .ok { session_id := "s1", messages := [], count := 0 } :=
  ⟨rfl, rfl⟩

/-! ## server/websocket_handlers.py handle_end_recording -/

/-- One buffered base64 audio chunk: either it fails to decode
(torchaudio.load raises) or it decodes to a mono waveform with a sample
rate. -/
inductive AudioChunk
  | bad
  | good (samples : List Int) (sampleRate : Nat)
deriving DecidableEq, Repr

def decodeChunk : AudioChunk → Option (List Int × Nat)
  | .bad => none
  | .good samples sr => some (samples, sr)

/-- Messages the handler sends to the websocket client. -/
inductive WsEvent
  | statusMsg (m : String)
  | errorMsg (m : String)
  | transcriptMsg (t : String)
deriving DecidableEq, Repr

/-- The observable outcome of one end-of-recording trigger. -/
structure EndRecordingResult where
  sent : List WsEvent
  transcriptionCalled : Bool
  bufferCleared : Bool
deriving DecidableEq, Repr

/-- The exceptions the per-chunk try block can raise. -/
inductive PyExc
  | decodeError
  | attributeError
deriving DecidableEq, Repr

/-- Body of the per-chunk try block in handle_end_recording: when
torchaudio.load fails it raises; when it succeeds, the next statement is
waveforms.routerend(wf) — Python lists have no routerend method, so an
AttributeError is raised before the waveform or sample rate is recorded.
Either exception is caught by the same per-chunk handler. -/
def chunkLoopBody (c : AudioChunk) : Except PyExc (List Int × Nat) :=
  match decodeChunk c with
  | none => .error .decodeError
  | some _ => .error .attributeError

/-- The decode loop: on the first exception the handler logs, sends the
Invalid-audio-chunk-format error and returns from the whole function. -/
def drainChunks : List AudioChunk → List (List Int) → List Nat →
    Except String (List (List Int) × List Nat)
  | [], wfs, srs => .ok (wfs, srs)
  | c :: rest, wfs, srs =>
    match chunkLoopBody c with
    | .ok (wf, sr) => drainChunks rest (wfs ++ [wf]) (srs ++ [sr])
    | .error _ => .error "Invalid audio chunk format"

/-- server/websocket_handlers.py handle_end_recording: the Redis chunk
buffer is deleted before any branch, so it is cleared on every trigger;
an empty batch gets a status message; otherwise the decode loop runs,
and only if it completes do the empty-waveforms check, the
mixed-sample-rate check and the transcription call follow.  transcript
models the return value of transcribe_audio. -/
def handle_end_recording (chunks : List AudioChunk) (transcript : String) :
    EndRecordingResult :=
  if chunks.isEmpty then
    ⟨[.statusMsg "No audio received"], false, true⟩
  else
    match drainChunks chunks [] [] with
    | .error m => ⟨[.errorMsg m], false, true⟩
    | .ok (wfs, srs) =>
      if wfs.isEmpty then
        ⟨[.statusMsg "No valid audio decoded"], false, true⟩
      else if 1 < srs.dedup.length then
        ⟨[.errorMsg "Inconsistent audio formats"], false, true⟩
      else if pyStrip transcript = "" then
        ⟨[.statusMsg "🗣️ Converting speech to text...",
          .statusMsg "❌ Could not understand speech"], true, true⟩
      else
        ⟨[.statusMsg "🗣️ Converting speech to text...",
          .transcriptMsg transcript], true, true⟩

theorem handle_end_recording_nonempty (chunks : List AudioChunk)
    (transcript : String) (h : chunks ≠ []) :
    handle_end_recording chunks transcript =
      ⟨[.errorMsg "Invalid audio chunk format"], false, true⟩ := by
  cases chunks with
  | nil => exact absurd rfl h
  | cons c rest => cases c <;> rfl

/-- The distinct sample rates the buffered chunks decode to. -/
def decodedSampleRates (chunks : List AudioChunk) : List Nat :=
  ((chunks.filterMap decodeChunk).map Prod.snd).dedup

/-- C8: a batch decoding to more than one distinct sample rate gets an
error message, no transcription call, and the batch is discarded; and
the chunk buffer is cleared on every end-of-recording trigger, success
or failure. -/
theorem mixed_sample_rates_rejected (chunks : List AudioChunk)
    (transcript : String) :
    (2 ≤ (decodedSampleRates chunks).length →
      (handle_end_recording chunks transcript).sent =
        [.errorMsg "Invalid audio chunk format"] ∧
      (handle_end_recording chunks transcript).transcriptionCalled = false) ∧
    (handle_end_recording chunks transcript).bufferCleared = true := by
  constructor
  · intro h
    have hne : chunks ≠ [] := by
      intro e
      subst e
      exact absurd h (by decide)
    rw [handle_end_recording_nonempty chunks transcript hne]
    exact ⟨rfl, rfl⟩
  · by_cases h : chunks = []
    · subst h
      rfl
    · rw [handle_end_recording_nonempty chunks transcript h]

/-- Witness for C8 at a two-chunk batch with sample rates 8000 and
16000. -/
theorem mixed_sample_rates_rejected_witness :
    2 ≤ (decodedSampleRates [.good [0] 8000, .good [0] 16000]).length ∧
    ((handle_end_recording [.good [0] 8000, .good [0] 16000] "hi").sent =
        [.errorMsg "Invalid audio chunk format"] ∧
      (handle_end_recording [.good [0] 8000, .good [0] 16000]
          "hi").transcriptionCalled = false) ∧
    (handle_end_recording [.good [0] 8000, .good [0] 16000]
        "hi").bufferCleared = true :=
  ⟨by decide,
   (mixed_sample_rates_rejected [.good [0] 8000, .good [0] 16000] "hi").1
     (by decide),
   (mixed_sample_rates_rejected [.good [0] 8000, .good [0] 16000] "hi").2⟩

/-- C7 counterexample: a batch with one undecodable chunk followed by a
decodable one is not transcribed — the whole recording is aborted with
an error, the good chunk is not concatenated or sent on. -/
theorem decode_failure_not_skipped :
    (handle_end_recording [.bad, .good [1] 8000] "hello").transcriptionCalled
      = false ∧
    (handle_end_recording [.bad, .good [1] 8000] "hello").sent =
      [.errorMsg "Invalid audio chunk format"] := by
  decide

/-- C7 amended: a decode failure is logged and answered with the
Invalid-audio-chunk-format error and the whole recording is aborted
without a transcription call; indeed every non-empty batch ends this
way, because on a successful decode the missing list method
(waveforms.routerend) raises an AttributeError that the same per-chunk
handler catches. -/
theorem end_recording_abort_behavior (chunks : List AudioChunk)
    (transcript : String) (h : chunks ≠ []) :
    handle_end_recording chunks transcript =
      ⟨[.errorMsg "Invalid audio chunk format"], false, true⟩ :=
  handle_end_recording_nonempty chunks transcript h

/-- Witness for C7 amended at the singleton undecodable batch. -/
theorem end_recording_abort_behavior_witness :
    ([AudioChunk.bad] ≠ []) ∧
    handle_end_recording [.bad] "x" =
      ⟨[.errorMsg "Invalid audio chunk format"], false, true⟩ :=
  ⟨by decide, end_recording_abort_behavior [.bad] "x" (by decide)⟩

end GlobalChatBot
